import Mathlib

/-!
Shallow embedding of the provider gateway in `src/backend/piplai.py`:
response normalization, TTL caching and the per-operation fallback policy.
Upstream HTTP outcomes are passed in as explicit `Except` values, one per
potential network call; the async methods become pure functions from the
cache state, the current time and those oracles to a result plus the new
cache state and the number of upstream calls issued.
-/

/-- Upstream failure classes of the httpx client: `statusError` models
`httpx.HTTPStatusError` (non-2xx status raised by `raise_for_status`),
`transportError` models every other `httpx.HTTPError`. -/
inductive HErr where
  | statusError (code : Nat)
  | transportError
deriving DecidableEq

/-- Python truthiness of an optional string: `None` and the empty string are
falsy, every other string is truthy. -/
def truthy : Option String → Bool
  | none => false
  | some s => s ≠ ""

/-- Python `str()` of an optional value as interpolated into the cache key
f-string: `None` prints as "None". -/
def pyOptStr : Option String → String
  | none => "None"
  | some s => s

/-- One entry of a TTLCache: key, value and absolute expiry instant. -/
structure CEntry (V : Type) where
  key : String
  val : V
  expires : Nat

/-- TTLCache lookup: an entry is visible only while `now` is before its
expiry; an expired entry behaves as absent. -/
def cacheGet {V : Type} (c : List (CEntry V)) (now : Nat) (k : String) : Option V :=
  match c.find? (fun e => e.key == k) with
  | some e => if now < e.expires then some e.val else none
  | none => none

/-- TTLCache insertion: replaces any entry under the same key and stamps the
new entry with expiry `now + ttl`. -/
def cachePut {V : Type} (c : List (CEntry V)) (now : Nat) (k : String) (v : V) (ttl : Nat) :
    List (CEntry V) :=
  ⟨k, v, now + ttl⟩ :: c.filter (fun e => !(e.key == k))

/-- An address object `\x7baddress, name\x7d` from the *_address_json lists. -/
structure Addr where
  address : String
  name : String
deriving DecidableEq

/-- The shape of an upstream `body` value as found in a raw email payload:
absent, present but neither string nor dict, a plain string, or a dict in
which the `text` and `html` keys may each be present or absent. -/
inductive RawBody where
  | missing
  | other
  | str (s : String)
  | obj (text html : Option String)
deriving DecidableEq

/-- A raw email record as returned by the upstream `/unibox/emails` call:
every field the normalization loop reads, each optional when the upstream
payload may omit it. -/
structure RawEmail where
  id : Option String
  message_id : Option String
  subject : Option String
  from_address_email : Option String
  from_address_json : Option (List Addr)
  to_address_json : Option (List Addr)
  cc_address_json : Option (List Addr)
  timestamp_created : Option String
  content_preview : Option String
  body : RawBody
  thread_id : Option String
  label : Option String
  campaign_id : Option String
  lead_id : Option String
  is_unread : Option Bool
deriving DecidableEq

/-- An entry of a fetched thread: the two fields the matching scan reads. -/
structure ThreadEmail where
  id : Option String
  body : RawBody
deriving DecidableEq

/-- The `body` field of a returned record: either a normalized
`\x7btext, html\x7d` object, or the raw upstream value left untouched by the
thread-expansion branch (absent, non-string non-dict, plain string, or a
partial dict). -/
inductive OutBody where
  | unset
  | otherVal
  | rawStr (s : String)
  | rawObj (text html : Option String)
  | norm (text html : String)
deriving DecidableEq

/-- True when the body field is present and is an object carrying both a
`text` and an `html` key. -/
def bodyHasTextHtml : OutBody → Bool
  | .norm _ _ => true
  | .rawObj (some _) (some _) => true
  | _ => false

/-- Embeds a raw upstream body value left untouched into the output type. -/
def rawOut : RawBody → OutBody
  | .missing => .unset
  | .other => .otherVal
  | .str s => .rawStr s
  | .obj t h => .rawObj t h

/-- Normalization of `email.get("body")` on the preview branch: a plain
string `s` becomes `\x7btext: s, html: s\x7d`, a dict keeps its `text` and
`html` values defaulting each to the empty string, and anything else
(absent value included) becomes `\x7btext: "", html: ""\x7d`. -/
def normBody : RawBody → OutBody
  | .str s => .norm s s
  | .obj t h => .norm (t.getD "") (h.getD "")
  | .missing => .norm "" ""
  | .other => .norm "" ""

/-- Body adoption from a matching thread entry,
`body = thread_email.get("body", \x7b\x7d)`: an absent body defaults to the
empty dict and normalizes to empty strings; a present value that is neither
string nor dict matches no branch and leaves the record body untouched. -/
def adoptBody (orig : OutBody) : RawBody → OutBody
  | .str s => .norm s s
  | .obj t h => .norm (t.getD "") (h.getD "")
  | .missing => .norm "" ""
  | .other => orig

/-- A returned email record after the normalization loop of `get_emails`. -/
structure OutEmail where
  id : String
  message_id : String
  subject : String
  from_address_email : String
  from_address_json : List Addr
  to_address_json : List Addr
  cc_address_json : List Addr
  timestamp_created : Option String
  content_preview : String
  body : OutBody
  thread : List ThreadEmail
  label : Option String
  campaign_id : Option String
  lead_id : Option String
  thread_id : Option String
  is_unread : Bool
deriving DecidableEq

/-- The five significant parameters of `get_emails`. -/
structure EmailParams where
  preview_only : Bool
  lead_email : Option String
  campaign_id : Option String
  email_type : String
  label : Option String
deriving DecidableEq

/-- The cache key f-string
`"\x7bpreview_only\x7d:\x7blead_email\x7d:\x7bcampaign_id\x7d:\x7bemail_type\x7d:\x7blabel\x7d"`
of `get_emails`, with Python rendering of booleans and `None`. -/
def cacheKey (p : EmailParams) : String :=
  (if p.preview_only then "True" else "False") ++ ":" ++ pyOptStr p.lead_email ++ ":"
    ++ pyOptStr p.campaign_id ++ ":" ++ p.email_type ++ ":" ++ pyOptStr p.label

/-- The per-record body of the normalization loop of `get_emails`: backfills
defaults, and either performs the thread expansion (when `preview_only` is
false and the record has a truthy `thread_id`) or normalizes the preview
body. Returns the record together with a flag telling whether the secondary
thread-fetch call was attempted. `tf` gives the outcome of the secondary
call per thread id, the success payload being the optional `data` list of
the thread response. -/
def normalizeEmail (preview_only : Bool)
    (tf : String → Except HErr (Option (List ThreadEmail))) (e : RawEmail) :
    OutEmail × Bool :=
  let eid := e.id.getD ""
  let base : OutEmail :=
    { id := eid
      message_id := e.message_id.getD ""
      subject := e.subject.getD ""
      from_address_email := e.from_address_email.getD ""
      from_address_json := e.from_address_json.getD [⟨e.from_address_email.getD "", ""⟩]
      to_address_json := e.to_address_json.getD []
      cc_address_json := e.cc_address_json.getD []
      timestamp_created := e.timestamp_created
      content_preview := e.content_preview.getD ""
      body := rawOut e.body
      thread := []
      label := e.label
      campaign_id := e.campaign_id
      lead_id := e.lead_id
      thread_id := e.thread_id
      is_unread := e.is_unread.getD false }
  if !preview_only && truthy e.thread_id then
    match tf (e.thread_id.getD "") with
    | .error _ => ({ base with thread := [], body := rawOut e.body }, true)
    | .ok payload =>
      let thr := payload.getD []
      let bodyAfter :=
        match thr.find? (fun t => t.id == some eid) with
        | some t => adoptBody (rawOut e.body) t.body
        | none => rawOut e.body
      ({ base with thread := thr, body := bodyAfter }, true)
  else
    ({ base with body := normBody e.body, thread := [] }, false)

/-- Result of a `get_emails` call: the returned value or propagated failure,
the email cache after the call, and how many upstream calls were issued
(primary plus thread fetches). -/
structure GetEmailsResult where
  out : Except HErr (List OutEmail)
  cacheOut : List (CEntry (List OutEmail))
  upstreamCalls : Nat

/-- `get_emails`: consult the cache under the parameter fingerprint; on a
miss issue the primary call (`primary` is its outcome, the success payload
being the optional `data` list), normalize every record, store the list in
the cache with a 300 second TTL and return it; a primary failure is
re-raised and leaves the cache untouched. -/
def get_emails (cache : List (CEntry (List OutEmail))) (now : Nat) (p : EmailParams)
    (primary : Except HErr (Option (List RawEmail)))
    (tf : String → Except HErr (Option (List ThreadEmail))) : GetEmailsResult :=
  let key := cacheKey p
  match cacheGet cache now key with
  | some v => ⟨.ok v, cache, 0⟩
  | none =>
    match primary with
    | .error e => ⟨.error e, cache, 1⟩
    | .ok payload =>
      let results := (payload.getD []).map (normalizeEmail p.preview_only tf)
      let emails := results.map Prod.fst
      ⟨.ok emails, cachePut cache now key emails 300, 1 + (results.filter Prod.snd).length⟩

/-- True for the not-found class of upstream status failures: an
`httpx.HTTPStatusError` whose response status code is 404. -/
def notFound404 : HErr → Bool
  | .statusError c => c == 404
  | .transportError => false

/-- A tag object as returned by `/tag/list`; only the `name` key is read. -/
structure Tag where
  name : Option String
deriving DecidableEq

/-- Characterwise uppercasing of a string, the effect of the Python
str.upper call on the tag names. -/
def pyUpper (s : String) : String :=
  String.mk (s.data.map Char.toUpper)

/-- Characterwise replacement of spaces by underscores, the effect of the
Python str.replace call with the single-character pattern " ". -/
def replaceSpaces (s : String) : String :=
  String.mk (s.data.map (fun c => if c = ' ' then '_' else c))

/-- Label derivation from tags: keep tags with a truthy name, uppercase the
name and replace spaces with underscores. -/
def deriveLabels (tags : List Tag) : List String :=
  (tags.filter (fun t => truthy t.name)).map
    (fun t => replaceSpaces (pyUpper (t.name.getD "")))

/-- The fixed default label vocabulary returned when upstream fails. -/
def defaultLabels : List String :=
  ["INTERESTED", "NOT_INTERESTED", "MEETING_BOOKED", "FOLLOW_UP", "WRONG_PERSON",
   "QUALIFIED", "NOT_QUALIFIED", "CONTACTED", "RESPONDED", "NO_RESPONSE"]

/-- Result of a `get_labels` call: the returned list, the label cache after
the call, and how many upstream calls were issued. -/
structure GetLabelsResult where
  labels : List String
  cacheOut : List (CEntry (List String))
  upstreamCalls : Nat

/-- `get_labels`: consult the label cache under the constant key "labels";
on a miss try the dedicated `/unibox/labels` endpoint (success payload is
the optional `labels` list of its response); on a 404 status failure derive
labels from `/tag/list`; on any other failure of the first call, or any
failure of the tag call, fall back to the fixed defaults. Every path stores
the returned list in the cache with a 3600 second TTL before returning. -/
def get_labels (cache : List (CEntry (List String))) (now : Nat)
    (labelsEp : Except HErr (Option (List String)))
    (tagsEp : Except HErr (List Tag)) : GetLabelsResult :=
  match cacheGet cache now "labels" with
  | some v => ⟨v, cache, 0⟩
  | none =>
    match labelsEp with
    | .ok payload =>
      let ls := payload.getD []
      ⟨ls, cachePut cache now "labels" ls 3600, 1⟩
    | .error e =>
      if notFound404 e then
        match tagsEp with
        | .ok tags =>
          let ls := deriveLabels tags
          ⟨ls, cachePut cache now "labels" ls 3600, 2⟩
        | .error _ => ⟨defaultLabels, cachePut cache now "labels" defaultLabels 3600, 2⟩
      else ⟨defaultLabels, cachePut cache now "labels" defaultLabels 3600, 1⟩

/-- A JSON value, used where the code dispatches on the dynamic shape of the
upstream payload. -/
inductive J where
  | null
  | str (s : String)
  | num (n : Int)
  | arr (xs : List J)
  | obj (kvs : List (String × J))

/-- First value under a key in a JSON object field list. -/
def jLookup (kvs : List (String × J)) (k : String) : Option J :=
  match kvs with
  | [] => none
  | (k1, v) :: rest => if k1 = k then some v else jLookup rest k

/-- JSON rendering of an optional integer parameter: `None` becomes null. -/
def optIntJ : Option Int → J
  | none => .null
  | some n => .num n

/-- The uniform leads envelope built by `get_leads`:
`\x7bdata, total, page, limit\x7d` with the requested page and limit. -/
def leadsPage (ds : List J) (total : Int) (page limit : Option Int) : J :=
  .obj [("data", .arr ds), ("total", .num total), ("page", optIntJ page),
        ("limit", optIntJ limit)]

/-- `get_leads` response normalization: a dict containing a `data` key is
passed through unchanged; otherwise a dict containing an `_id` key becomes a
one-element page with total 1; a bare list of N items becomes a page of
those items with total N; any other shape, and any upstream failure, becomes
the empty page with total 0. Never raises. -/
def get_leads (page limit : Option Int) (upstream : Except HErr J) : J :=
  match upstream with
  | .error _ => leadsPage [] 0 page limit
  | .ok data =>
    match data with
    | .obj kvs =>
      if (jLookup kvs "data").isSome then .obj kvs
      else if (jLookup kvs "_id").isSome then leadsPage [.obj kvs] 1 page limit
      else leadsPage [] 0 page limit
    | .arr xs => leadsPage xs (xs.length : Int) page limit
    | _ => leadsPage [] 0 page limit

/-- The environment variables the gateway reads; `none` models an unset
variable, for which `os.getenv` substitutes the given default, if any. -/
structure Env where
  apiKey : Option String
  workspaceId : Option String
  senderEmail : Option String
  senderName : Option String
  defaultCampaignId : Option String

/-- The state built by `PiplAPI.__init__`: API key and workspace id, each
falling back to an inline literal default when the variable is unset. -/
structure PiplAPI where
  api_key : String
  workspace_id : String
deriving DecidableEq

/-- `PiplAPI.__init__` over the environment. -/
def PiplAPI.init (env : Env) : PiplAPI :=
  ⟨env.apiKey.getD "6fc126c4-04e5c9d5-87b13817-eedc8acc",
   env.workspaceId.getD "67bd12283f02ce58fa6fb65d"⟩

/-- The request payload `send_email` posts upstream: either a reply to an
existing thread, or a lead-add carrying the subject and body as the custom
variables initial_subject and initial_body under the configured default
campaign id (absent campaign id is carried as null). -/
inductive SendPayload where
  | reply (workspace_id reply_to_id subject toAddr bodyText sender : String)
  | leadAdd (workspace_id : String) (campaign_id : Option String)
      (leadEmail initial_subject initial_body : String)
deriving DecidableEq

/-- The sender string: `"\x7bname\x7d <\x7bemail\x7d>"` when the sender name
is truthy, the bare sender email otherwise, with the literal defaults of the
two getenv calls. -/
def senderOf (env : Env) : String :=
  let sender_email := env.senderEmail.getD "noreply@caeros.com"
  let sender_name := env.senderName.getD "Diana Moreno"
  if sender_name ≠ "" then sender_name ++ " <" ++ sender_email ++ ">" else sender_email

/-- `send_email`: when `reply_to_id` is truthy, post the reply payload to
`/unibox/emails/reply` and return that call outcome (failures re-raised);
otherwise post the lead-add payload to `/lead/add` and return that call
outcome. Returns the payload actually posted together with the outcome. -/
def send_email (api : PiplAPI) (env : Env) (toAddr subject bodyText : String)
    (reply_to_id : Option String)
    (replyUp leadUp : Except HErr J) : SendPayload × Except HErr J :=
  if truthy reply_to_id then
    (.reply api.workspace_id (reply_to_id.getD "") subject toAddr bodyText (senderOf env), replyUp)
  else
    (.leadAdd api.workspace_id env.defaultCampaignId toAddr subject bodyText, leadUp)

/-- `get_campaigns`: returns the upstream JSON, degrading to the empty list
on any upstream failure. -/
def get_campaigns (upstream : Except HErr J) : J :=
  match upstream with
  | .ok v => v
  | .error _ => .arr []

/-- `get_tags`: returns the upstream JSON, degrading to the empty list on
any upstream failure. -/
def get_tags (upstream : Except HErr J) : J :=
  match upstream with
  | .ok v => v
  | .error _ => .arr []

/-- `get_analytics`: returns the upstream JSON, degrading to
`\x7bstats: \x7b\x7d\x7d` on any upstream failure. -/
def get_analytics (upstream : Except HErr J) : J :=
  match upstream with
  | .ok v => v
  | .error _ => .obj [("stats", .obj [])]

/-- The payload of `add_lead_to_sequence`. -/
structure SubseqPayload where
  workspace_id : String
  subseq_id : String
  parent_lead_ids : List String
deriving DecidableEq

/-- `add_lead_to_sequence`: posts the subsequence payload; an upstream
failure is re-raised to the caller. -/
def add_lead_to_sequence (api : PiplAPI) (email sequence_id : String)
    (upstream : Except HErr J) : SubseqPayload × Except HErr J :=
  (⟨api.workspace_id, sequence_id, [email]⟩, upstream)

/-- The payload of `update_lead`. -/
structure UpdateLeadPayload where
  workspace_id : String
  campaign_id : String
  email : String
  varsJson : List (String × J)

/-- `update_lead`: posts the lead-update payload; an upstream failure is
re-raised to the caller. -/
def update_lead (api : PiplAPI) (email campaign_id : String)
    (varsJson : List (String × J)) (upstream : Except HErr J) :
    UpdateLeadPayload × Except HErr J :=
  (⟨api.workspace_id, campaign_id, email, varsJson⟩, upstream)

/-- The payload of `update_email_label`. -/
structure LabelUpdatePayload where
  workspace_id : String
  email_id : String
  label : String
deriving DecidableEq

/-- `update_email_label`: posts the label-update payload; an upstream
failure is re-raised to the caller. -/
def update_email_label (api : PiplAPI) (email_id label : String)
    (upstream : Except HErr J) : LabelUpdatePayload × Except HErr J :=
  (⟨api.workspace_id, email_id, label⟩, upstream)

/-- Helper: a value just stored under a key is visible under that key
exactly while the TTL has not elapsed. -/
theorem cacheGet_cachePut_same {V : Type} (c : List (CEntry V)) (t0 t1 : Nat)
    (k : String) (v : V) (ttl : Nat) :
    cacheGet (cachePut c t0 k v ttl) t1 k = if t1 < t0 + ttl then some v else none := by
  simp [cacheGet, cachePut, List.find?]

/-- C8: on upstream failure the read-heavy operations degrade (campaigns and
tags to the empty list, analytics to empty stats) while the write operations
add_lead_to_sequence, update_lead and update_email_label re-raise the
failure to the caller. -/
theorem C8_fallback_policy :
    (∀ e : HErr, get_campaigns (.error e) = .arr [])
  ∧ (∀ e : HErr, get_tags (.error e) = .arr [])
  ∧ (∀ e : HErr, get_analytics (.error e) = .obj [("stats", .obj [])])
  ∧ (∀ (api : PiplAPI) (email sid : String) (e : HErr),
      (add_lead_to_sequence api email sid (.error e)).2 = .error e)
  ∧ (∀ (api : PiplAPI) (email cid : String) (vs : List (String × J)) (e : HErr),
      (update_lead api email cid vs (.error e)).2 = .error e)
  ∧ (∀ (api : PiplAPI) (eid lab : String) (e : HErr),
      (update_email_label api eid lab (.error e)).2 = .error e) :=
  ⟨fun _ => rfl, fun _ => rfl, fun _ => rfl, fun _ _ _ _ => rfl,
   fun _ _ _ _ _ => rfl, fun _ _ _ _ => rfl⟩

/-- C9: when the cache misses and the primary upstream call of get_emails
fails, the failure is re-raised, the cache is returned unchanged, and one
upstream call was made; the cache entry is only written on the success
path. -/
theorem C9_primary_failure_atomic (cache : List (CEntry (List OutEmail))) (now : Nat)
    (p : EmailParams) (e : HErr)
    (tf : String → Except HErr (Option (List ThreadEmail)))
    (hmiss : cacheGet cache now (cacheKey p) = none) :
    get_emails cache now p (.error e) tf = ⟨.error e, cache, 1⟩ := by
  simp [get_emails, hmiss]

/-- A fixed parameter record used to instantiate email theorems. -/
def pEx : EmailParams := ⟨false, none, none, "all", none⟩

/-- A thread-fetch oracle that always fails with a transport error. -/
def tfFail : String → Except HErr (Option (List ThreadEmail)) :=
  fun _ => .error .transportError

/-- Witness for C9 at a concrete input. -/
theorem C9_witness :
    get_emails [] 0 pEx (.error .transportError) tfFail
      = ⟨.error .transportError, [], 1⟩ :=
  C9_primary_failure_atomic [] 0 pEx .transportError tfFail rfl

/-- C2: get_leads always produces the uniform envelope: a bare list of N
items becomes a page of those N items with total N and the requested page
and limit; an upstream failure becomes the empty page; an enveloped page is
passed through unchanged; a bare single object (dict with an _id key and no
data key) becomes a one-element page; a dict with neither key, or any
non-dict non-list payload, becomes the empty page. The function is total,
so no input raises. -/
theorem C2_get_leads_envelope (page limit : Option Int) :
    (∀ xs : List J, get_leads page limit (.ok (.arr xs))
        = leadsPage xs (xs.length : Int) page limit)
  ∧ (∀ e : HErr, get_leads page limit (.error e) = leadsPage [] 0 page limit)
  ∧ (∀ kvs, (jLookup kvs "data").isSome = true →
      get_leads page limit (.ok (.obj kvs)) = .obj kvs)
  ∧ (∀ kvs, jLookup kvs "data" = none → (jLookup kvs "_id").isSome = true →
      get_leads page limit (.ok (.obj kvs)) = leadsPage [.obj kvs] 1 page limit)
  ∧ (∀ kvs, jLookup kvs "data" = none → jLookup kvs "_id" = none →
      get_leads page limit (.ok (.obj kvs)) = leadsPage [] 0 page limit)
  ∧ get_leads page limit (.ok .null) = leadsPage [] 0 page limit
  ∧ (∀ s, get_leads page limit (.ok (.str s)) = leadsPage [] 0 page limit)
  ∧ (∀ n, get_leads page limit (.ok (.num n)) = leadsPage [] 0 page limit) := by
  refine ⟨fun xs => rfl, fun e => rfl, ?_, ?_, ?_, rfl, fun s => rfl, fun n => rfl⟩
  · intro kvs h
    simp [get_leads, h]
  · intro kvs hd hid
    simp [get_leads, hd, hid]
  · intro kvs hd hid
    simp [get_leads, hd, hid]

/-- Witness for C2 at concrete inputs: a bare three-element list, a failing
upstream, a passed-through envelope, a bare single object and an
unrecognized string payload. -/
theorem C2_witness :
    get_leads (some 2) (some 5) (.ok (.arr [.null, .null, .null]))
        = leadsPage [.null, .null, .null] 3 (some 2) (some 5)
  ∧ get_leads (some 2) (some 5) (.error .transportError)
        = leadsPage [] 0 (some 2) (some 5)
  ∧ get_leads (some 2) (some 5) (.ok (.obj [("data", .arr [.null])]))
        = .obj [("data", .arr [.null])]
  ∧ get_leads (some 2) (some 5) (.ok (.obj [("_id", .str "x")]))
        = leadsPage [.obj [("_id", .str "x")]] 1 (some 2) (some 5)
  ∧ get_leads (some 2) (some 5) (.ok (.str "odd"))
        = leadsPage [] 0 (some 2) (some 5) := by
  obtain ⟨h1, h2, h3, h4, _, _, h7, _⟩ := C2_get_leads_envelope (some 2) (some 5)
  exact ⟨h1 _, h2 _, h3 _ rfl, h4 _ rfl rfl, h7 _⟩

/-- An environment with every variable unset. -/
def envEmpty : Env := ⟨none, none, none, none, none⟩

/-- C6 counterexample: with the default campaign id variable unset (a
required identifier absent from configuration), send_email in lead-creation
mode completes normally, silently carrying a null campaign_id in the posted
payload instead of surfacing a configuration error; the API key and
workspace id are likewise silently substituted with inline literals. -/
theorem C6_counterexample :
    send_email (PiplAPI.init envEmpty) envEmpty "a@b.c" "Hi" "Body" none
        (.ok .null) (.ok .null)
      = (.leadAdd "67bd12283f02ce58fa6fb65d" none "a@b.c" "Hi" "Body", .ok .null) := rfl

/-- C6 (amended): no Gateway operation surfaces a configuration error on a
missing identifier: __init__ always substitutes inline literal defaults for
a missing API key and workspace id, and send_email in lead-creation mode
always completes with campaign_id taken verbatim from the (possibly absent)
environment value. -/
theorem C6_config_never_errors :
    (∀ env : Env, PiplAPI.init env
        = ⟨env.apiKey.getD "6fc126c4-04e5c9d5-87b13817-eedc8acc",
           env.workspaceId.getD "67bd12283f02ce58fa6fb65d"⟩)
  ∧ (∀ (env : Env) (toA s b : String) (rUp lUp : Except HErr J),
      send_email (PiplAPI.init env) env toA s b none rUp lUp
        = (.leadAdd (env.workspaceId.getD "67bd12283f02ce58fa6fb65d")
            env.defaultCampaignId toA s b, lUp)) :=
  ⟨fun _ => rfl, fun _ _ _ _ _ _ => rfl⟩

/-- C7: send_email has two mutually exclusive modes: a truthy reply_to_id
posts the reply payload and returns the reply-call outcome, no reply_to_id
posts the lead-add payload carrying the subject and body as custom
variables under the configured default campaign id and returns the lead-add
outcome; in each mode an upstream failure is returned as the raised error,
never replaced by a default. -/
theorem C7_send_modes (api : PiplAPI) (env : Env) (toA subj b rid : String)
    (rUp lUp : Except HErr J) (hrid : rid ≠ "") :
    send_email api env toA subj b (some rid) rUp lUp
        = (.reply api.workspace_id rid subj toA b (senderOf env), rUp)
  ∧ send_email api env toA subj b none rUp lUp
        = (.leadAdd api.workspace_id env.defaultCampaignId toA subj b, lUp)
  ∧ (∀ e : HErr, (send_email api env toA subj b none rUp (.error e)).2 = .error e
      ∧ (send_email api env toA subj b (some rid) (.error e) lUp).2 = .error e) := by
  refine ⟨?_, rfl, ?_⟩
  · simp [send_email, truthy, hrid]
  · intro e
    refine ⟨rfl, ?_⟩
    simp [send_email, truthy, hrid]

/-- Witness for C7 at a concrete input. -/
theorem C7_witness :
    send_email ⟨"k", "w"⟩ envEmpty "a@b.c" "Hi" "Body" (some "r1") (.ok .null) (.error .transportError)
        = (.reply "w" "r1" "Hi" "a@b.c" "Body" (senderOf envEmpty), .ok .null)
  ∧ send_email ⟨"k", "w"⟩ envEmpty "a@b.c" "Hi" "Body" none (.ok .null) (.error .transportError)
        = (.leadAdd "w" none "a@b.c" "Hi" "Body", .error .transportError) :=
  ⟨(C7_send_modes ⟨"k", "w"⟩ envEmpty "a@b.c" "Hi" "Body" "r1" (.ok .null)
      (.error .transportError) (by decide)).1,
   (C7_send_modes ⟨"k", "w"⟩ envEmpty "a@b.c" "Hi" "Body" "r1" (.ok .null)
      (.error .transportError) (by decide)).2.1⟩

/-- A raw record with no body and a truthy thread id, for the
thread-expansion path. -/
def cexRaw : RawEmail :=
  ⟨none, none, none, none, none, none, none, none, none, .missing, some "t1",
   none, none, none, none⟩

/-- C1 counterexample: with preview mode off and a record whose thread fetch
fails, get_emails returns the record with its body field absent (the raw
missing value is never normalized), so the returned body is not an object
with text and html keys. -/
theorem C1_counterexample :
    Except.map (fun l => l.map (fun r => bodyHasTextHtml r.body))
        (get_emails [] 0 pEx (.ok (some [cexRaw])) tfFail).out = .ok [false]
  ∧ Except.map (fun l => l.map (fun r => r.body))
        (get_emails [] 0 pEx (.ok (some [cexRaw])) tfFail).out = .ok [.unset] :=
  ⟨rfl, rfl⟩

/-- C1 (amended): the returned list is the per-record normalization of the
upstream data list; every record backfills a missing to_address_json to []
and a missing is_unread to false; and whenever the record is processed on
the preview branch (preview mode on, or no truthy thread_id) its body is
fully normalized: a missing body becomes empty text and html, a plain
string s becomes text s and html s, a dict keeps its text and html with
empty-string defaults, and the normalized body always carries both keys. In
the thread-expansion branch the body may be left as the raw upstream
value. -/
theorem C1_preview_normalization
    (cache : List (CEntry (List OutEmail))) (now : Nat) (p : EmailParams)
    (payload : Option (List RawEmail))
    (tf : String → Except HErr (Option (List ThreadEmail)))
    (pv : Bool) (e : RawEmail)
    (hmiss : cacheGet cache now (cacheKey p) = none) :
    (get_emails cache now p (.ok payload) tf).out
        = .ok ((payload.getD []).map (fun r => (normalizeEmail p.preview_only tf r).1))
  ∧ (normalizeEmail pv tf e).1.to_address_json = e.to_address_json.getD []
  ∧ (normalizeEmail pv tf e).1.is_unread = e.is_unread.getD false
  ∧ (pv = true ∨ truthy e.thread_id = false →
      (normalizeEmail pv tf e).1.body = normBody e.body)
  ∧ normBody .missing = .norm "" ""
  ∧ (∀ s, normBody (.str s) = .norm s s)
  ∧ (∀ t h, normBody (.obj t h) = .norm (t.getD "") (h.getD ""))
  ∧ (∀ b, bodyHasTextHtml (normBody b) = true) := by
  refine ⟨?_, ?_, ?_, ?_, rfl, fun s => rfl, fun t h => rfl, ?_⟩
  · simp [get_emails, hmiss, List.map_map, Function.comp]
  · cases hb : (!pv && truthy e.thread_id) with
    | false => simp [normalizeEmail, hb]
    | true =>
      cases htf : tf (e.thread_id.getD "") with
      | error er => simp [normalizeEmail, hb, htf]
      | ok pl => simp [normalizeEmail, hb, htf]
  · cases hb : (!pv && truthy e.thread_id) with
    | false => simp [normalizeEmail, hb]
    | true =>
      cases htf : tf (e.thread_id.getD "") with
      | error er => simp [normalizeEmail, hb, htf]
      | ok pl => simp [normalizeEmail, hb, htf]
  · intro h
    have hb : (!pv && truthy e.thread_id) = false := by
      rcases h with h | h <;> simp [h]
    simp [normalizeEmail, hb]
  · intro b
    cases b <;> rfl

/-- The preview-mode parameter record used to instantiate C1. -/
def pPrev : EmailParams := ⟨true, none, none, "all", none⟩

/-- A raw record with a plain-string body. -/
def eStr : RawEmail :=
  ⟨some "e1", none, none, none, none, none, none, none, none, .str "hello",
   none, none, none, none, none⟩

/-- Witness for C1 at a concrete input: preview mode on, one record whose
body is the plain string "hello". -/
theorem C1_witness :
    (get_emails [] 0 pPrev (.ok (some [eStr])) tfFail).out
        = .ok (((some [eStr]).getD []).map
            (fun r => (normalizeEmail pPrev.preview_only tfFail r).1))
  ∧ (normalizeEmail true tfFail eStr).1.to_address_json = eStr.to_address_json.getD []
  ∧ (normalizeEmail true tfFail eStr).1.is_unread = eStr.is_unread.getD false
  ∧ (true = true ∨ truthy eStr.thread_id = false →
      (normalizeEmail true tfFail eStr).1.body = normBody eStr.body)
  ∧ normBody .missing = .norm "" ""
  ∧ (∀ s, normBody (.str s) = .norm s s)
  ∧ (∀ t h, normBody (.obj t h) = .norm (t.getD "") (h.getD ""))
  ∧ (∀ b, bodyHasTextHtml (normBody b) = true) :=
  C1_preview_normalization [] 0 pPrev (some [eStr]) tfFail true eStr rfl

/-- C3: the get_labels fallback chain on a cache miss: a 404 status failure
of the dedicated endpoint falls back to deriving labels from tag names
(uppercased, spaces to underscores, two upstream calls made); any failure
that is not of the not-found class returns the fixed defaults directly
after a single upstream call (the tag tier is skipped); a 404 followed by a
failing tag call also returns the fixed defaults; the tag example
["Follow Up", "vip"] derives to ["FOLLOW_UP", "VIP"]; and the default
vocabulary has exactly ten labels. -/
theorem C3_labels_fallback (cache : List (CEntry (List String))) (now : Nat)
    (tagsEp : Except HErr (List Tag))
    (hmiss : cacheGet cache now "labels" = none) :
    (∀ ts, tagsEp = .ok ts →
      get_labels cache now (.error (.statusError 404)) tagsEp
        = ⟨deriveLabels ts, cachePut cache now "labels" (deriveLabels ts) 3600, 2⟩)
  ∧ (∀ e : HErr, notFound404 e = false →
      get_labels cache now (.error e) tagsEp
        = ⟨defaultLabels, cachePut cache now "labels" defaultLabels 3600, 1⟩)
  ∧ (∀ err : HErr, tagsEp = .error err →
      get_labels cache now (.error (.statusError 404)) tagsEp
        = ⟨defaultLabels, cachePut cache now "labels" defaultLabels 3600, 2⟩)
  ∧ deriveLabels [⟨some "Follow Up"⟩, ⟨some "vip"⟩] = ["FOLLOW_UP", "VIP"]
  ∧ defaultLabels.length = 10 := by
  refine ⟨?_, ?_, ?_, by decide, rfl⟩
  · intro ts hts
    subst hts
    simp [get_labels, hmiss, notFound404]
  · intro e he
    simp [get_labels, hmiss, he]
  · intro err herr
    subst herr
    simp [get_labels, hmiss, notFound404]

/-- Witness for C3 at concrete inputs: the 404-to-tags tier with the
example tags, and a transport failure going straight to the defaults. -/
theorem C3_witness :
    get_labels [] 0 (.error (.statusError 404)) (.ok [⟨some "Follow Up"⟩, ⟨some "vip"⟩])
      = ⟨deriveLabels [⟨some "Follow Up"⟩, ⟨some "vip"⟩],
         cachePut [] 0 "labels" (deriveLabels [⟨some "Follow Up"⟩, ⟨some "vip"⟩]) 3600, 2⟩
  ∧ get_labels [] 0 (.error .transportError) (.ok [])
      = ⟨defaultLabels, cachePut [] 0 "labels" defaultLabels 3600, 1⟩
  ∧ deriveLabels [⟨some "Follow Up"⟩, ⟨some "vip"⟩] = ["FOLLOW_UP", "VIP"] :=
  ⟨(C3_labels_fallback [] 0 (.ok [⟨some "Follow Up"⟩, ⟨some "vip"⟩]) rfl).1 _ rfl,
   (C3_labels_fallback [] 0 (.ok []) rfl).2.1 .transportError rfl,
   (C3_labels_fallback [] 0 (.ok []) rfl).2.2.2.1⟩

/-- C4: the thread-fetch flag of normalizeEmail is set exactly when preview
mode is off and the record has a truthy thread_id; when the secondary
thread-fetch call fails the record keeps an empty thread list; and whenever
the primary call succeeded the overall get_emails call returns a success,
whatever the thread oracle does. -/
theorem C4_thread_best_effort
    (pv : Bool) (tf : String → Except HErr (Option (List ThreadEmail))) (e : RawEmail)
    (cache : List (CEntry (List OutEmail))) (now : Nat) (p : EmailParams)
    (payload : Option (List RawEmail)) (err : HErr)
    (hmiss : cacheGet cache now (cacheKey p) = none) :
    ((normalizeEmail pv tf e).2 = true ↔ pv = false ∧ truthy e.thread_id = true)
  ∧ (pv = false → truthy e.thread_id = true →
      tf (e.thread_id.getD "") = .error err →
      (normalizeEmail pv tf e).1.thread = [])
  ∧ (∃ outs, (get_emails cache now p (.ok payload) tf).out = .ok outs) := by
  have hsnd : (normalizeEmail pv tf e).2 = (!pv && truthy e.thread_id) := by
    cases hb : (!pv && truthy e.thread_id) with
    | false => simp [normalizeEmail, hb]
    | true =>
      cases htf : tf (e.thread_id.getD "") with
      | error er => simp [normalizeEmail, hb, htf]
      | ok pl => simp [normalizeEmail, hb, htf]
  refine ⟨?_, ?_, ?_⟩
  · simp [hsnd]
  · intro hpv ht htf
    have hb : (!pv && truthy e.thread_id) = true := by rw [hpv, ht]; rfl
    simp [normalizeEmail, hb, htf]
  · exact ⟨((payload.getD []).map (normalizeEmail p.preview_only tf)).map Prod.fst,
      by simp [get_emails, hmiss]⟩

/-- Witness for C4 at a concrete input: preview off, thread id "t1", a
failing thread oracle. -/
theorem C4_witness :
    (normalizeEmail false tfFail cexRaw).1.thread = []
  ∧ (normalizeEmail false tfFail cexRaw).2 = true :=
  ⟨(C4_thread_best_effort false tfFail cexRaw [] 0 pEx (some [cexRaw])
      .transportError rfl).2.1 rfl rfl rfl,
   ((C4_thread_best_effort false tfFail cexRaw [] 0 pEx (some [cexRaw])
      .transportError rfl).1).mpr ⟨rfl, rfl⟩⟩

/-- C5: after a first successful get_emails call on a cache miss, a second
call with the same five parameters inside the 300 second TTL window hits
the cache entry under the shared parameter fingerprint: it returns exactly
the first call result, leaves the cache unchanged, and issues zero upstream
calls, whatever oracles the second call is given. -/
theorem C5_cache_second_call
    (cache : List (CEntry (List OutEmail))) (t0 t1 : Nat) (p : EmailParams)
    (payload : Option (List RawEmail))
    (tf tf2 : String → Except HErr (Option (List ThreadEmail)))
    (primary2 : Except HErr (Option (List RawEmail)))
    (hmiss : cacheGet cache t0 (cacheKey p) = none)
    (httl : t1 < t0 + 300) :
    get_emails (get_emails cache t0 p (.ok payload) tf).cacheOut t1 p primary2 tf2
      = ⟨(get_emails cache t0 p (.ok payload) tf).out,
         (get_emails cache t0 p (.ok payload) tf).cacheOut, 0⟩ := by
  simp [get_emails, hmiss, cacheGet_cachePut_same, httl]

/-- Witness for C5 at a concrete input: the second call runs 100 seconds
after the first with a failing primary oracle and still returns the cached
result with zero upstream calls. -/
theorem C5_witness :
    get_emails (get_emails [] 0 pEx (.ok (some [])) tfFail).cacheOut 100 pEx
        (.error .transportError) tfFail
      = ⟨(get_emails [] 0 pEx (.ok (some [])) tfFail).out,
         (get_emails [] 0 pEx (.ok (some [])) tfFail).cacheOut, 0⟩ :=
  C5_cache_second_call [] 0 100 pEx (some []) tfFail tfFail (.error .transportError)
    rfl (by decide)

/-- C10: on a cache miss every get_labels call stores the list it returns
into the label cache under the constant key, for every combination of
endpoint outcomes (dedicated success, tag-derived tier, fixed defaults on
failure); a second call within the 3600 second TTL therefore returns that
same list with zero upstream calls, whatever its own oracles say. -/
theorem C10_labels_cache_everything
    (cache : List (CEntry (List String))) (t0 t1 : Nat)
    (labelsEp labelsEp2 : Except HErr (Option (List String)))
    (tagsEp tagsEp2 : Except HErr (List Tag))
    (hmiss : cacheGet cache t0 "labels" = none)
    (httl : t1 < t0 + 3600) :
    cacheGet (get_labels cache t0 labelsEp tagsEp).cacheOut t1 "labels"
        = some (get_labels cache t0 labelsEp tagsEp).labels
  ∧ get_labels (get_labels cache t0 labelsEp tagsEp).cacheOut t1 labelsEp2 tagsEp2
        = ⟨(get_labels cache t0 labelsEp tagsEp).labels,
           (get_labels cache t0 labelsEp tagsEp).cacheOut, 0⟩ := by
  have key : ∀ ls : List String,
      cacheGet (cachePut cache t0 "labels" ls 3600) t1 "labels" = some ls := by
    intro ls
    rw [cacheGet_cachePut_same]
    simp [httl]
  cases labelsEp with
  | ok payload => constructor <;> simp [get_labels, hmiss, key]
  | error e =>
    by_cases he : notFound404 e = true
    · cases tagsEp with
      | ok ts => constructor <;> simp [get_labels, hmiss, he, key]
      | error e2 => constructor <;> simp [get_labels, hmiss, he, key]
    · have he2 : notFound404 e = false := by simpa using he
      constructor <;> simp [get_labels, hmiss, he2, key]

/-- Witness for C10 at a concrete input: the first call fails entirely and
caches the defaults; the second call 100 seconds later sees a recovered
upstream but still returns the cached defaults with zero upstream calls. -/
theorem C10_witness :
    cacheGet (get_labels [] 0 (.error .transportError) (.ok [])).cacheOut 100 "labels"
        = some (get_labels [] 0 (.error .transportError) (.ok [])).labels
  ∧ get_labels (get_labels [] 0 (.error .transportError) (.ok [])).cacheOut 100
        (.ok (some ["RECOVERED"])) (.ok [])
      = ⟨(get_labels [] 0 (.error .transportError) (.ok [])).labels,
         (get_labels [] 0 (.error .transportError) (.ok [])).cacheOut, 0⟩ :=
  C10_labels_cache_everything [] 0 100 (.error .transportError) (.ok (some ["RECOVERED"]))
    (.ok []) (.ok []) rfl (by decide)
